import Mathlib

/-!
Shallow embedding of the `dagster-components` scaffolding CLI
(`dagster_components/generate.py` and `dagster_components/cli/generate.py`).

The embedding models:
  * JSON values (results of schema validation) together with Python
    truthiness, as used by `if generate_params:` and `component_params or {}`;
  * the YAML emission of `component.yaml` via `yaml.dump(..., Dumper=
    ComponentDumper, sort_keys=False, default_flow_style=False)`, where
    `ComponentDumper.write_line_break` doubles every line break written
    while the emitter's indent is 0 (producing a blank line after each
    top-level block);
  * the filesystem / process state touched by the generators, with the
    external collaborators (`generate_project`, `os.path.abspath`,
    filesystem inspection for project contexts, pydantic validation)
    supplied as abstract functions in an environment record;
  * the four CLI commands as functions from state to a result record
    carrying the final state, the list of `click.echo` messages, and the
    process outcome (normal exit with a code, or an uncaught exception).
-/

/-- JSON values, as produced by `TypeAdapter(schema).validate_json` and
consumed by the component hooks.  (Sequences are not needed by any claim
and are omitted; objects keep their key insertion order, as Python dicts
do.) -/
inductive Json where
  | null : Json
  | bool : Bool → Json
  | int : Int → Json
  | str : String → Json
  | obj : List (String × Json) → Json
deriving Repr

/-- Python truthiness of a JSON value: `None`, `False`, `0`, `""` and `{}`
are falsy, everything else truthy. -/
def Json.truthy : Json → Bool
  | .null => false
  | .bool b => b
  | .int n => n != 0
  | .str s => s != ""
  | .obj kvs => !kvs.isEmpty

/-- Truthiness of the Python variable `generate_params : Optional[Any]`:
`None` is falsy, otherwise the value's own truthiness decides. -/
def pyTruthyOpt : Option Json → Bool
  | none => false
  | some v => v.truthy

/-- `n` spaces, used for block-style YAML indentation. -/
def spaces (n : Nat) : String :=
  String.mk (List.replicate n ' ')

/-- Rendering of a scalar as a plain YAML scalar (the shapes reached by
`component.yaml` emission: registry keys and simple parameter values). -/
def yamlScalar : Json → String
  | .null => "null"
  | .bool true => "true"
  | .bool false => "false"
  | .int n => toString n
  | .str s => s
  | .obj _ => ""

mutual

/-- Lines of one block-style mapping entry `key: value` at indentation `i`,
following PyYAML's block emission with `default_flow_style=False`: scalar
values stay on the key's line, a non-empty mapping value is emitted as a
nested block indented two further spaces, and an empty mapping collapses
to `{}`. -/
def yamlEntryLines (i : Nat) (k : String) : Json → List String
  | .obj [] => [spaces i ++ k ++ ": {}"]
  | .obj (kv :: kvs) => (spaces i ++ k ++ ":") :: yamlObjLines (i + 2) (kv :: kvs)
  | v => [spaces i ++ k ++ ": " ++ yamlScalar v]

/-- Lines of a block-style mapping at indentation `i`, keys kept in
insertion order (`sort_keys=False`). -/
def yamlObjLines (i : Nat) : List (String × Json) → List String
  | [] => []
  | (k, v) :: rest => yamlEntryLines i k v ++ yamlObjLines i rest

end

/-- Joins lines into text, one trailing newline per line. -/
def renderBlock (ls : List String) : String :=
  String.join (ls.map (fun l => l ++ "\n"))

/-- `yaml.dump(data, Dumper=ComponentDumper, sort_keys=False,
default_flow_style=False)` for a top-level mapping: each top-level entry's
block in insertion order, and — because `ComponentDumper.write_line_break`
writes the break twice whenever the emitter's indent is 0 — an extra blank
line after every top-level block (hence one blank line between consecutive
top-level keys and a trailing blank line). -/
def componentDump (data : List (String × Json)) : String :=
  String.join (data.map (fun kv => renderBlock (yamlEntryLines 0 kv.1 kv.2) ++ "\n"))

/-- Process state visible to the commands: the working directory, the
regular files (path paired with contents) and the directories that exist. -/
structure PState where
  cwd : String
  files : List (String × String)
  dirs : List String
deriving Repr, DecidableEq

/-- `os.path.exists`: the path names an existing file or directory. -/
def pathExists (s : PState) (p : String) : Bool :=
  s.dirs.contains p || s.files.any (fun kv => kv.1 == p)

/-- `open(path, "w")` followed by writing `contents`: creates or
overwrites the file at `path`. -/
def writeFileS (s : PState) (p contents : String) : PState :=
  { s with files := (p, contents) :: s.files.filter (fun kv => kv.1 != p) }

/-- `os.path.join` for the two-argument joins the generators perform. -/
def pathJoin (a b : String) : String := a ++ "/" ++ b

/-- Stands for `os.path.dirname(__file__)` inside `generate.py`: the
installed package directory that holds the `templates` trees. -/
def moduleDir : String := "dagster_components"

/-- Modelled from the spec: `pushd` from `dagster._utils` (not under
`src/`) — a scoped working-directory change: the body runs with `cwd` set
to `dir`, and the original `cwd` is restored afterward on every exit path,
whether the body returns normally or raises.  Nothing besides `cwd` is
touched by the scoping itself; the body's other state changes pass
through. -/
def withPushd {α : Type} (dir : String) (body : PState → PState × Except String α)
    (s : PState) : PState × Except String α :=
  let r := body { s with cwd := dir }
  ({ r.1 with cwd := s.cwd }, r.2)

/-- One `click.echo` call; `colored` records whether the message carries
`click.style(..., fg="red")` coloring. -/
structure Echo where
  text : String
  colored : Bool
deriving Repr, DecidableEq

/-- How a command invocation ends: a normal process exit with a code
(`sys.exit(1)` on user errors, falling off the end for success, which
click turns into exit 0), or an uncaught Python exception propagating out
of the command. -/
inductive Outcome where
  | exited : Nat → Outcome
  | raised : String → Outcome
deriving Repr, DecidableEq

/-- Result of running one CLI command: final state, the `click.echo`
messages in order, and the process outcome. -/
structure CmdResult where
  state : PState
  echoes : List Echo
  outcome : Outcome
deriving Repr, DecidableEq

/-- The keyword arguments each generator passes to the external
`generate_project` primitive (the Template Copier). -/
structure GenerateProjectArgs where
  path : String
  namePlaceholder : String
  templatesPath : String
  projectName : Option String
  componentTypeClassName : Option String
  componentType : Option String
deriving Repr, DecidableEq

/-- Shorthand for the abstract Template Copier: `generate_project` from
`dagster._generate.generate` is an external collaborator, so its effect on
the filesystem is an arbitrary state transformer supplied by the
environment. -/
abbrev GenerateProjectFn := GenerateProjectArgs → PState → PState

/-- Splits a character list at every `-` or `_` separator. -/
def splitSnake : List Char → List (List Char)
  | [] => [[]]
  | c :: cs =>
    if c == '-' || c == '_' then [] :: splitSnake cs
    else match splitSnake cs with
      | [] => [[c]]
      | w :: ws => (c :: w) :: ws

/-- Helper capitalizing the first character of one word. -/
def capitalizeWord : List Char → String
  | [] => ""
  | c :: cs => String.mk (Char.toUpper c :: cs)

/-- Modelled from the spec: `camelcase` from `dagster._utils` (not under
`src/`), per the naming-derivation rule "class-name placeholders are
produced by camel-casing the user-supplied kebab/snake-case name" — the
name is split at `-` and `_`, each piece's first character is upper-cased,
and the pieces are concatenated. -/
def camelcase (s : String) : String :=
  String.join ((splitSnake s.data).map capitalizeWord)

/-- `generate_deployment` from `generate.py`: echoes the creation message
and invokes `generate_project` with the deployment placeholder and
template tree. -/
def generate_deployment (gp : GenerateProjectFn) (path : String) (s : PState) :
    PState × List Echo :=
  (gp { path := path
      , namePlaceholder := "DEPLOYMENT_NAME_PLACEHOLDER"
      , templatesPath := pathJoin (pathJoin moduleDir "templates") "DEPLOYMENT_NAME_PLACEHOLDER"
      , projectName := none
      , componentTypeClassName := none
      , componentType := none } s,
   [⟨"Creating a Dagster deployment at " ++ path ++ ".", false⟩])

/-- `generate_code_location` from `generate.py`. -/
def generate_code_location (gp : GenerateProjectFn) (path : String) (s : PState) :
    PState × List Echo :=
  (gp { path := path
      , namePlaceholder := "CODE_LOCATION_NAME_PLACEHOLDER"
      , templatesPath := pathJoin (pathJoin moduleDir "templates") "CODE_LOCATION_NAME_PLACEHOLDER"
      , projectName := none
      , componentTypeClassName := none
      , componentType := none } s,
   [⟨"Creating a Dagster code location at " ++ path ++ ".", false⟩])

/-- The keyword arguments `generate_component_type` passes to
`generate_project`: the project name and the component-type key are the
user-supplied name verbatim, the class name is its camel-cased form. -/
def generateComponentTypeArgs (rootPath name : String) : GenerateProjectArgs :=
  { path := rootPath
  , namePlaceholder := "COMPONENT_TYPE_NAME_PLACEHOLDER"
  , templatesPath := pathJoin (pathJoin moduleDir "templates") "COMPONENT_TYPE"
  , projectName := some name
  , componentTypeClassName := some (camelcase name)
  , componentType := some name }

/-- `generate_component_type` from `generate.py`. -/
def generate_component_type (gp : GenerateProjectFn) (rootPath name : String)
    (s : PState) : PState × List Echo :=
  (gp (generateComponentTypeArgs rootPath name) s,
   [⟨"Creating a Dagster component type at " ++ rootPath ++ "/" ++ name ++ ".py.", false⟩])

/-- Modelled from the spec: the optional `generate_params_schema` of a
component type together with the external pydantic validation and the
optional `cli` attribute on the schema (neither lives under `src/`).
`validateJson` is `TypeAdapter(schema).validate_json`: a JSON string
either validates to a typed value or raises a validation error.  `cli`,
when present, is the sub-command that parses the extra CLI arguments into
a value of the same schema. -/
structure ParamsSchema where
  validateJson : String → Except String Json
  cli : Option (List String → Json)

/-- Modelled from the spec: a registered component type (the `Component`
class hierarchy and the registry live outside `src/`).  `registryKey` is
`get_component_name`; `generateFiles` is the type's file-generation hook
`generate_files`, receiving `none` for the zero-argument call and
`some v` for `generate_files(v)`; it may change the filesystem state and
either raises or returns its parameters mapping — per the spec the hook
obtains "a parameters mapping", with `none` modelling a Python `None`
return. -/
structure ComponentType where
  registryKey : String
  generateParamsSchema : Option ParamsSchema
  generateFiles : Option Json → PState → PState × Except String (Option (List (String × Json)))

/-- The argument of the `generate_files` call in
`generate_component_instance`: the Python code runs
`generate_files(generate_params) if generate_params else generate_files()`,
so the resolved params are passed exactly when they are truthy, and the
zero-argument call is modelled by `none`. -/
def hookArg (generateParams : Option Json) : Option Json :=
  if pyTruthyOpt generateParams then generateParams else none

/-- `component_params or {}` applied to the hook's return: a `None`
return (and likewise an empty mapping, which is falsy) ends up as the
empty mapping. -/
def paramsOrEmpty : Option (List (String × Json)) → List (String × Json)
  | none => []
  | some kvs => kvs

/-- The dict literal `{"type": component_registry_key, "params":
component_params or {}}` built by `generate_component_instance`, keys in
insertion order. -/
def componentData (registryKey : String) (params : List (String × Json)) :
    List (String × Json) :=
  [("type", Json.str registryKey), ("params", Json.obj params)]

/-- The keyword arguments `generate_component_instance` passes to
`generate_project`. -/
def generateComponentInstanceArgs (cirp name registryKey : String) :
    GenerateProjectArgs :=
  { path := cirp
  , namePlaceholder := "COMPONENT_INSTANCE_NAME_PLACEHOLDER"
  , templatesPath := pathJoin (pathJoin moduleDir "templates") "COMPONENT_INSTANCE_NAME_PLACEHOLDER"
  , projectName := some name
  , componentTypeClassName := none
  , componentType := some registryKey }

/-- `generate_component_instance` from `generate.py`: copies the instance
template, then — with the working directory scoped to the new instance
directory — runs the component type's `generate_files` hook, and finally
writes `component.yaml` with the registry key and the (possibly emptied)
parameters mapping.  An exception from the hook propagates (as the
`Except.error` component) after the working directory is restored, and in
that case no `component.yaml` is written. -/
def generate_component_instance (gp : GenerateProjectFn) (rootPath name : String)
    (componentType : ComponentType) (generateParams : Option Json) (s : PState) :
    PState × List Echo × Except String Unit :=
  let cirp := pathJoin rootPath name
  let key := componentType.registryKey
  let s1 := gp (generateComponentInstanceArgs cirp name key) s
  let pr := withPushd cirp (fun st =>
    let hr := componentType.generateFiles (hookArg generateParams) st
    match hr.2 with
    | .error e => (hr.1, .error e)
    | .ok cp => (hr.1, .ok (componentData key (paramsOrEmpty cp)))) s1
  let echoes : List Echo :=
    [⟨"Creating a Dagster component instance at " ++ rootPath ++ "/" ++ name ++ ".py.", false⟩]
  match pr.2 with
  | .error e => (pr.1, echoes, .error e)
  | .ok cdata =>
      (writeFileS pr.1 (pathJoin cirp "component.yaml") (componentDump cdata), echoes, .ok ())

/-- Environment of `generate deployment`: `os.path.abspath` and the
Template Copier, both external collaborators. -/
structure DeployEnv where
  abspath : String → String
  generateProject : GenerateProjectFn

/-- `generate_deployment_command` from `cli/generate.py`: if the absolute
form of the path already exists, echo a red-styled message and
`sys.exit(1)`; otherwise run `generate_deployment`. -/
def generate_deployment_command (env : DeployEnv) (path : String) (s : PState) :
    CmdResult :=
  let dirAbspath := env.abspath path
  if pathExists s dirAbspath then
    { state := s
    , echoes := [⟨"A file or directory at " ++ dirAbspath ++ " already exists. " ++
        "\nPlease delete the contents of this path or choose another location.", true⟩]
    , outcome := .exited 1 }
  else
    let r := generate_deployment env.generateProject path s
    { state := r.1, echoes := r.2, outcome := .exited 0 }

/-- Modelled from the spec: the view of `CodeLocationProjectContext`
(defined in `dagster_components.core.deployment`, not under `src/`) that
`generate_component_command` uses — the component-instances root path, the
instance-name existence check, and the registry lookup
(`has_component_type` is `(registry name).isSome`, `get_component_type`
returns the found type). -/
structure CodeLocationCtx where
  componentInstancesRootPath : String
  hasComponentInstanceNamed : String → Bool
  registry : String → Option ComponentType

/-- Environment of `generate component`: whether the working directory is
inside a code-location project (`is_inside_code_location_project`, a
filesystem inspection defined outside `src/`), the resolved project
context, and the Template Copier. -/
structure ComponentCmdEnv where
  insideCodeLocation : Bool
  context : CodeLocationCtx
  generateProject : GenerateProjectFn

/-- The parameter-resolution cascade of `generate_component_command`:
no declared schema resolves to `None`; otherwise a supplied
`--json-params` string is validated against the schema (a validation
failure raising out of the command); otherwise, when the schema has a
`cli` attribute, the extra CLI arguments are parsed with it; otherwise
`None`. -/
def resolveGenerateParams (schema : Option ParamsSchema) (jsonParams : Option String)
    (extraArgs : List String) : Except String (Option Json) :=
  match schema with
  | none => .ok none
  | some sch =>
    match jsonParams with
    | some j => (sch.validateJson j).map some
    | none =>
      match sch.cli with
      | some parse => .ok (some (parse extraArgs))
      | none => .ok none

/-- `generate_component_command` from `cli/generate.py`: the three guard
checks in source order (inside a code-location project; component type
registered; instance name free), each failure echoing a red-styled
message and exiting 1 before anything touches the filesystem; then
parameter resolution; then `generate_component_instance`. -/
def generate_component_command (env : ComponentCmdEnv)
    (componentType componentName : String) (jsonParams : Option String)
    (extraArgs : List String) (s : PState) : CmdResult :=
  if !env.insideCodeLocation then
    { state := s
    , echoes := [⟨"This command must be run inside a Dagster code location project.", true⟩]
    , outcome := .exited 1 }
  else
    match env.context.registry componentType with
    | none =>
      { state := s
      , echoes := [⟨"No component type `" ++ componentType ++ "` could be resolved.", true⟩]
      , outcome := .exited 1 }
    | some tcls =>
      if env.context.hasComponentInstanceNamed componentName then
        { state := s
        , echoes := [⟨"A component instance named `" ++ componentName ++ "` already exists.", true⟩]
        , outcome := .exited 1 }
      else
        match resolveGenerateParams tcls.generateParamsSchema jsonParams extraArgs with
        | .error e => { state := s, echoes := [], outcome := .raised e }
        | .ok gp =>
          let r := generate_component_instance env.generateProject
              env.context.componentInstancesRootPath componentName tcls gp s
          match r.2.2 with
          | .error e => { state := r.1, echoes := r.2.1, outcome := .raised e }
          | .ok _ => { state := r.1, echoes := r.2.1, outcome := .exited 0 }

/-- Contents of the file at `p`, when one exists. -/
def lookupFile (s : PState) (p : String) : Option String :=
  (s.files.find? (fun kv => kv.1 == p)).map (fun kv => kv.2)

/-- Concrete schema used by witnesses and counterexamples: it accepts
exactly the JSON text `{"a": 1}` (validating it to the object `{a: 1}`)
and rejects everything else with a validation error. -/
def sampleSchema : ParamsSchema :=
  { validateJson := fun j =>
      if j == "\x7b\"a\": 1\x7d" then .ok (.obj [("a", .int 1)]) else .error "ValidationError"
  , cli := none }

/-- Concrete component type used by witnesses and counterexamples: its
registry key is `sling`, it declares `sampleSchema`, and its
file-generation hook leaves the filesystem alone and returns the mapping
`{b: 2}` — which is not the validated params, exhibiting that the hook's
return, not the parsed JSON, is what lands in `component.yaml`. -/
def sampleType : ComponentType :=
  { registryKey := "sling"
  , generateParamsSchema := some sampleSchema
  , generateFiles := fun _ st => (st, .ok (some [("b", .int 2)])) }

/-- Concrete code-location context: instances live under
`loc/components`, no instance name is taken, and only `sling` is
registered. -/
def sampleCtx : CodeLocationCtx :=
  { componentInstancesRootPath := "loc/components"
  , hasComponentInstanceNamed := fun _ => false
  , registry := fun t => if t == "sling" then some sampleType else none }

/-- Concrete command environment sitting inside a code-location project,
whose Template Copier records its invocation by creating the instance
directory. -/
def sampleEnv : ComponentCmdEnv :=
  { insideCodeLocation := true
  , context := sampleCtx
  , generateProject := fun _ st => { st with dirs := "loc/components/mycomp" :: st.dirs } }

/-- The same environment but outside any code-location project. -/
def outsideEnv : ComponentCmdEnv :=
  { sampleEnv with insideCodeLocation := false }

/-- Initial process state for the component-command scenarios. -/
def sampleState : PState := { cwd := "loc", files := [], dirs := ["loc"] }

/-- Concrete environment for `generate deployment`: absolute paths are
taken verbatim and the Template Copier is the identity. -/
def sampleDeployEnv : DeployEnv :=
  { abspath := fun p => p, generateProject := fun _ st => st }

/-- Initial state for the deployment scenario: the directory `d` exists. -/
def sampleDeployState : PState := { cwd := "/", files := [], dirs := ["d"] }

/-- C2: for every path whose absolute form names an already-existing file
or directory, `generate deployment <path>` echoes the red-styled
already-exists message, exits with status 1, and performs no filesystem
mutation — the resulting state is exactly the initial one. -/
theorem C2_deployment_existing_path (env : DeployEnv) (path : String) (s : PState)
    (h : pathExists s (env.abspath path) = true) :
    generate_deployment_command env path s =
      { state := s
      , echoes := [⟨"A file or directory at " ++ env.abspath path ++ " already exists. " ++
          "\nPlease delete the contents of this path or choose another location.", true⟩]
      , outcome := .exited 1 } := by
  simp [generate_deployment_command, h]

/-- Witness for C2 at the concrete state where directory `d` exists. -/
theorem C2_witness :
    pathExists sampleDeployState (sampleDeployEnv.abspath "d") = true ∧
    generate_deployment_command sampleDeployEnv "d" sampleDeployState =
      { state := sampleDeployState
      , echoes := [⟨"A file or directory at d already exists. " ++
          "\nPlease delete the contents of this path or choose another location.", true⟩]
      , outcome := .exited 1 } :=
  ⟨rfl, C2_deployment_existing_path sampleDeployEnv "d" sampleDeployState rfl⟩

/-- C3: the three user-error preconditions of `generate component` — not
inside a code-location project, component type unregistered, instance name
taken — are checked in source order; each failure exits 1 with its own
red-styled message and an unchanged state (no filesystem mutation, no
partial state), and only when all three pass does the command resolve
parameters and invoke `generate_component_instance`. -/
theorem C3_component_guards_in_order (env : ComponentCmdEnv) (t n : String)
    (j : Option String) (args : List String) (s : PState) :
    (env.insideCodeLocation = false →
      generate_component_command env t n j args s =
        { state := s
        , echoes := [⟨"This command must be run inside a Dagster code location project.", true⟩]
        , outcome := .exited 1 }) ∧
    (env.insideCodeLocation = true → env.context.registry t = none →
      generate_component_command env t n j args s =
        { state := s
        , echoes := [⟨"No component type `" ++ t ++ "` could be resolved.", true⟩]
        , outcome := .exited 1 }) ∧
    (∀ tcls, env.insideCodeLocation = true → env.context.registry t = some tcls →
      env.context.hasComponentInstanceNamed n = true →
      generate_component_command env t n j args s =
        { state := s
        , echoes := [⟨"A component instance named `" ++ n ++ "` already exists.", true⟩]
        , outcome := .exited 1 }) ∧
    (∀ tcls gp, env.insideCodeLocation = true → env.context.registry t = some tcls →
      env.context.hasComponentInstanceNamed n = false →
      resolveGenerateParams tcls.generateParamsSchema j args = .ok gp →
      generate_component_command env t n j args s =
        (let r := generate_component_instance env.generateProject
            env.context.componentInstancesRootPath n tcls gp s
         { state := r.1
         , echoes := r.2.1
         , outcome := match r.2.2 with | .error e => .raised e | .ok _ => .exited 0 })) := by
  refine ⟨?_, ?_, ?_, ?_⟩
  · intro h; simp [generate_component_command, h]
  · intro h h2; simp [generate_component_command, h, h2]
  · intro tcls h h2 h3; simp [generate_component_command, h, h2, h3]
  · intro tcls gp h h2 h3 h4
    simp only [generate_component_command, h, h2, h3, h4, Bool.not_true, Bool.false_eq_true,
      if_false]
    cases hr : (generate_component_instance env.generateProject
        env.context.componentInstancesRootPath n tcls gp s).2.2 <;> simp [hr]

/-- Witness for C3: outside a code-location project the command exits 1
with the context message and an untouched state. -/
theorem C3_witness :
    generate_component_command outsideEnv "sling" "mycomp" none [] sampleState =
      { state := sampleState
      , echoes := [⟨"This command must be run inside a Dagster code location project.", true⟩]
      , outcome := .exited 1 } :=
  (C3_component_guards_in_order outsideEnv "sling" "mycomp" none [] sampleState).1 rfl

/-- C1 (amended): on the success path of `generate component` with a
declared params schema and a validating `--json-params` string, the
command exits 0 and writes `component.yaml` whose `type` is the registry
key and whose `params` is the mapping returned by the component type's
file-generation hook (emptied when the hook returns `None` or an empty
mapping) — not, in general, the parsed JSON itself. -/
theorem C1_component_yaml_from_hook (env : ComponentCmdEnv) (t n j : String)
    (args : List String) (s : PState) (tcls : ComponentType) (sch : ParamsSchema)
    (pv : Json) (st2 : PState) (cp : Option (List (String × Json)))
    (hIn : env.insideCodeLocation = true)
    (hReg : env.context.registry t = some tcls)
    (hFree : env.context.hasComponentInstanceNamed n = false)
    (hSch : tcls.generateParamsSchema = some sch)
    (hVal : sch.validateJson j = .ok pv)
    (hHook : tcls.generateFiles (hookArg (some pv))
        { env.generateProject
            (generateComponentInstanceArgs
              (pathJoin env.context.componentInstancesRootPath n) n tcls.registryKey) s with
          cwd := pathJoin env.context.componentInstancesRootPath n } = (st2, .ok cp)) :
    (generate_component_command env t n (some j) args s).outcome = .exited 0 ∧
    lookupFile (generate_component_command env t n (some j) args s).state
        (pathJoin (pathJoin env.context.componentInstancesRootPath n) "component.yaml") =
      some (componentDump (componentData tcls.registryKey (paramsOrEmpty cp))) := by
  have hres : resolveGenerateParams tcls.generateParamsSchema (some j) args = .ok (some pv) := by
    simp [resolveGenerateParams, hSch, hVal, Except.map]
  simp only [generate_component_command, hIn, hReg, hFree, hres, Bool.not_true,
    Bool.false_eq_true, if_false]
  simp only [generate_component_instance, withPushd, hHook]
  refine ⟨by simp, ?_⟩
  simp [lookupFile, writeFileS]

/-- Witness for C1 (amended): the concrete `sling` scenario — validation
succeeds on the JSON text, the command exits 0, and the emitted file holds
the hook's mapping. -/
theorem C1_witness :
    (generate_component_command sampleEnv "sling" "mycomp"
        (some "\x7b\"a\": 1\x7d") [] sampleState).outcome = .exited 0 ∧
    lookupFile (generate_component_command sampleEnv "sling" "mycomp"
        (some "\x7b\"a\": 1\x7d") [] sampleState).state
        (pathJoin (pathJoin sampleEnv.context.componentInstancesRootPath "mycomp")
          "component.yaml") =
      some (componentDump (componentData sampleType.registryKey
        (paramsOrEmpty (some [("b", Json.int 2)])))) :=
  C1_component_yaml_from_hook sampleEnv "sling" "mycomp" "\x7b\"a\": 1\x7d" [] sampleState
    sampleType sampleSchema (Json.obj [("a", Json.int 1)])
    { cwd := "loc/components/mycomp", files := [], dirs := ["loc/components/mycomp", "loc"] }
    (some [("b", Json.int 2)]) rfl rfl rfl rfl rfl rfl

/-- Counterexample to C1 as stated: for the concrete component type
`sling`, the JSON text validates to the object `{a: 1}`, yet the written
`component.yaml` carries the hook's mapping `{b: 2}` and differs from the
dump whose `params` would be the parsed JSON — the claim's "params equals
the parsed JSON" fails. -/
theorem C1_counterexample :
    sampleSchema.validateJson "\x7b\"a\": 1\x7d" = .ok (Json.obj [("a", Json.int 1)]) ∧
    lookupFile (generate_component_command sampleEnv "sling" "mycomp"
        (some "\x7b\"a\": 1\x7d") [] sampleState).state
        "loc/components/mycomp/component.yaml" =
      some "type: sling\n\nparams:\n  b: 2\n\n" ∧
    some "type: sling\n\nparams:\n  b: 2\n\n" ≠
      some (componentDump (componentData "sling" [("a", Json.int 1)])) := by
  refine ⟨rfl, rfl, ?_⟩
  decide

/-- C4: the emitted `component.yaml` keeps insertion key order — `type`
serialized before `params` (note that alphabetization would put `params`
first) — in block style: the whole dump is the `type` line, one blank
line, then the `params` block and the trailing doubled break, and a
non-empty `params` mapping is laid out as a nested block (`params:` on its
own line, entries on their own lines indented two spaces), never in flow
style. -/
theorem C4_yaml_key_order_and_blank_line (k : String) (pf : List (String × Json))
    (kv : String × Json) (kvs : List (String × Json)) :
    (componentData k pf).map Prod.fst = ["type", "params"] ∧
    componentDump (componentData k pf) =
      ("type: " ++ k ++ "\n") ++ "\n" ++
      (renderBlock (yamlEntryLines 0 "params" (Json.obj pf)) ++ "\n") ∧
    yamlEntryLines 0 "params" (Json.obj (kv :: kvs)) = "params:" :: yamlObjLines 2 (kv :: kvs) ∧
    ["type", "params"] ≠ ["params", "type"] := by
  refine ⟨rfl, rfl, rfl, by decide⟩

/-- C5: when a component type declares a params schema and both
`--json-params` and extra CLI arguments are supplied, resolution takes the
validated JSON and the extra arguments are ignored — the whole command
result is independent of the extra arguments whenever `--json-params` is
present. -/
theorem C5_json_params_precedence (env : ComponentCmdEnv) (t n j : String)
    (a b : List String) (s : PState) (sch : ParamsSchema) :
    resolveGenerateParams (some sch) (some j) a = (sch.validateJson j).map some ∧
    generate_component_command env t n (some j) a s =
      generate_component_command env t n (some j) b s := by
  constructor
  · rfl
  · have hr : ∀ so : Option ParamsSchema, ∀ x y : List String,
        resolveGenerateParams so (some j) x = resolveGenerateParams so (some j) y := by
      intro so x y; cases so <;> rfl
    cases hIn : env.insideCodeLocation with
    | false => simp [generate_component_command, hIn]
    | true =>
      cases hReg : env.context.registry t with
      | none => simp [generate_component_command, hIn, hReg]
      | some tcls =>
        cases hInst : env.context.hasComponentInstanceNamed n with
        | true => simp [generate_component_command, hIn, hReg, hInst]
        | false =>
          simp only [generate_component_command, hIn, hReg, hInst, Bool.not_true,
            Bool.false_eq_true, if_false]
          rw [hr tcls.generateParamsSchema a b]

/-- C6 (amended): a `--json-params` string that violates the declared
schema makes the validation error propagate as an uncaught exception —
the command terminates abnormally (nonzero process exit) rather than
echoing a colored message and calling `sys.exit(1)` — and nothing is
echoed, no filesystem mutation happens, and no `component.yaml` is
created: the state is exactly the initial one. -/
theorem C6_invalid_json_raises_before_mutation (env : ComponentCmdEnv) (t n j : String)
    (args : List String) (s : PState) (tcls : ComponentType) (sch : ParamsSchema) (e : String)
    (hIn : env.insideCodeLocation = true)
    (hReg : env.context.registry t = some tcls)
    (hFree : env.context.hasComponentInstanceNamed n = false)
    (hSch : tcls.generateParamsSchema = some sch)
    (hVal : sch.validateJson j = .error e) :
    generate_component_command env t n (some j) args s =
      { state := s, echoes := [], outcome := .raised e } := by
  have hres : resolveGenerateParams tcls.generateParamsSchema (some j) args = .error e := by
    simp [resolveGenerateParams, hSch, hVal, Except.map]
  simp [generate_component_command, hIn, hReg, hFree, hres]

/-- Witness for C6 (amended): the concrete invalid JSON text `bad`. -/
theorem C6_witness :
    sampleSchema.validateJson "bad" = .error "ValidationError" ∧
    generate_component_command sampleEnv "sling" "mycomp" (some "bad") [] sampleState =
      { state := sampleState, echoes := [], outcome := .raised "ValidationError" } :=
  ⟨rfl, C6_invalid_json_raises_before_mutation sampleEnv "sling" "mycomp" "bad" [] sampleState
    sampleType sampleSchema "ValidationError" rfl rfl rfl rfl rfl⟩

/-- Counterexample to C6 as stated: at the concrete invalid input the
command echoes nothing at all — in particular no colored message — and its
outcome is the propagating validation exception, not a `sys.exit(1)`
after a report. -/
theorem C6_counterexample :
    (generate_component_command sampleEnv "sling" "mycomp" (some "bad") [] sampleState).echoes =
      [] ∧
    (generate_component_command sampleEnv "sling" "mycomp" (some "bad") [] sampleState).outcome =
      .raised "ValidationError" ∧
    Outcome.raised "ValidationError" ≠ Outcome.exited 1 := by
  refine ⟨rfl, rfl, by decide⟩

/-- C7: `pushd` scopes the working-directory change to the hook — for any
body (succeeding or raising) the resulting working directory is the
original one, while the body runs against the state whose `cwd` is the
target directory and whose other fields are untouched; the scoping alters
nothing but `cwd` (files, directories and the body's own result pass
through).  Accordingly, `generate_component_instance` ends with the
working directory it had right after the template copy, on every exit
path including a failing hook. -/
theorem C7_pushd_scoped_cwd {α : Type} (dir : String)
    (body : PState → PState × Except String α) (s : PState)
    (gpf : GenerateProjectFn) (rootPath name : String) (ct : ComponentType)
    (gparams : Option Json) (st : PState) :
    (withPushd dir body s).1.cwd = s.cwd ∧
    (withPushd dir body s).1.files = (body { s with cwd := dir }).1.files ∧
    (withPushd dir body s).1.dirs = (body { s with cwd := dir }).1.dirs ∧
    (withPushd dir body s).2 = (body { s with cwd := dir }).2 ∧
    (generate_component_instance gpf rootPath name ct gparams st).1.cwd =
      (gpf (generateComponentInstanceArgs (pathJoin rootPath name) name ct.registryKey) st).cwd := by
  refine ⟨rfl, rfl, rfl, rfl, ?_⟩
  unfold generate_component_instance
  cases hr : (ct.generateFiles (hookArg gparams)
      { gpf (generateComponentInstanceArgs (pathJoin rootPath name) name ct.registryKey) st with
        cwd := pathJoin rootPath name }).2 <;>
    simp [withPushd, writeFileS, hr]

/-- C8: YAML emission is deterministic and idempotent — the dump of a
fixed descriptor is one fixed string, so writing it to the same file a
second time leaves the state byte-identical, and the file holds exactly
that dump. -/
theorem C8_emission_idempotent (d : List (String × Json)) (s : PState) (p : String) :
    writeFileS (writeFileS s p (componentDump d)) p (componentDump d) =
      writeFileS s p (componentDump d) ∧
    lookupFile (writeFileS s p (componentDump d)) p = some (componentDump d) := by
  constructor
  · simp [writeFileS, List.filter_filter]
  · simp [lookupFile, writeFileS]

/-- C9: `generate_component_type` passes the camel-cased form of the
user-supplied kebab/snake-case name as the class-name substitution, and
the name verbatim as both the component-type key and the project name. -/
theorem C9_type_substitutions (rootPath name : String) (gp : GenerateProjectFn) (s : PState) :
    (generateComponentTypeArgs rootPath name).componentTypeClassName =
      some (camelcase name) ∧
    (generateComponentTypeArgs rootPath name).componentType = some name ∧
    (generateComponentTypeArgs rootPath name).projectName = some name ∧
    (generate_component_type gp rootPath name s).1 =
      gp (generateComponentTypeArgs rootPath name) s ∧
    camelcase "my-component_type" = "MyComponentType" :=
  ⟨rfl, rfl, rfl, rfl, by decide⟩

/-- C10: the `params` written to `component.yaml` is always a mapping and
never null — a `None` (or empty, hence falsy) hook return becomes the
empty mapping — and the hook receives the resolved params exactly when
they are truthy: absent or falsy-but-present validated params yield the
zero-argument call. -/
theorem C10_params_always_mapping (v : Json) (cp : Option (List (String × Json))) :
    hookArg none = none ∧
    (v.truthy = false → hookArg (some v) = none) ∧
    (v.truthy = true → hookArg (some v) = some v) ∧
    Json.obj (paramsOrEmpty cp) ≠ Json.null ∧
    paramsOrEmpty none = [] ∧
    (∀ (gpf : GenerateProjectFn) (rootPath name : String) (ct : ComponentType)
        (gparams : Option Json) (s st2 : PState),
      ct.generateFiles (hookArg gparams)
          { gpf (generateComponentInstanceArgs (pathJoin rootPath name) name ct.registryKey) s with
            cwd := pathJoin rootPath name } = (st2, .ok cp) →
      lookupFile (generate_component_instance gpf rootPath name ct gparams s).1
          (pathJoin (pathJoin rootPath name) "component.yaml") =
        some (componentDump (componentData ct.registryKey (paramsOrEmpty cp)))) := by
  refine ⟨rfl, ?_, ?_, fun h => Json.noConfusion h, rfl, ?_⟩
  · intro h; simp [hookArg, pyTruthyOpt, h]
  · intro h; simp [hookArg, pyTruthyOpt, h]
  · intro gpf rootPath name ct gparams s st2 hHook
    simp only [generate_component_instance, withPushd, hHook]
    simp [lookupFile, writeFileS]

/-- Witness for C10: the falsy-but-present validated params `{}` lead to
the zero-argument hook call, and the concrete instance generation writes
the hook's mapping. -/
theorem C10_witness :
    hookArg (some (Json.obj [])) = none ∧
    lookupFile (generate_component_instance (fun _ st => st) "loc/components" "mycomp"
        sampleType (some (Json.obj [])) sampleState).1
        (pathJoin (pathJoin "loc/components" "mycomp") "component.yaml") =
      some (componentDump (componentData sampleType.registryKey
        (paramsOrEmpty (some [("b", Json.int 2)])))) :=
  ⟨(C10_params_always_mapping (Json.obj []) (some [("b", Json.int 2)])).2.1 rfl,
   (C10_params_always_mapping (Json.obj []) (some [("b", Json.int 2)])).2.2.2.2.2
     (fun _ st => st) "loc/components" "mycomp" sampleType (some (Json.obj [])) sampleState
     { cwd := "loc/components/mycomp", files := [], dirs := ["loc"] } rfl⟩
